import Mathlib

/-!
# Verification of the Order Analytics Dashboard data path

Shallow embedding of `deepseek_python_20250513_d7c1ab.py`: the in-memory
table (`DF`), the `load_data` preprocessing step, the sequential filter
pipeline of `main`, the KPI and top-N aggregations, and the CSV export.
Cells are modelled by `Value` (string / rational number / calendar date /
null, where null stands for pandas NaN/NaT); fallible pandas operations
(column access on a missing column, `astype(float)` on an unparseable
string) return `Except Err`.
-/

namespace Dash

/-- A calendar date, as produced by parsing with format `%d/%m/%Y`. -/
structure Date where
  year : Nat
  month : Nat
  day : Nat
deriving DecidableEq, Repr

/-- Chronological comparison of dates (lexicographic on year, month, day). -/
def dateLe (a b : Date) : Bool :=
  if a.year < b.year then true
  else if b.year < a.year then false
  else if a.month < b.month then true
  else if b.month < a.month then false
  else decide (a.day ≤ b.day)

/-- A cell of the table: pandas object string, float, datetime, or NaN/NaT. -/
inductive Value where
  | null
  | str (s : String)
  | num (q : Rat)
  | date (d : Date)
deriving DecidableEq, Repr

/-- Exceptions the embedded data path can raise: `KeyError` on a missing
column, `ValueError` from `astype(float)` on an unparseable string. -/
inductive Err where
  | missingCol (c : String)
  | floatParse (s : String)
deriving DecidableEq, Repr

/-- Whether an exception is a missing-column `KeyError`. -/
def Err.isMissing : Err → Bool
  | .missingCol _ => true
  | .floatParse _ => false

/-! ## Character-list utilities (CSV fields, date and number formats) -/

/-- Split a character list at every occurrence of `c` (never returns `[]`). -/
def splitCh (c : Char) : List Char → List (List Char)
  | [] => [[]]
  | x :: xs =>
    match splitCh c xs with
    | [] => [[]]
    | y :: ys => if x = c then [] :: y :: ys else (x :: y) :: ys

/-- Join character lists with separator `c` (left inverse of `splitCh`). -/
def joinCh (c : Char) : List (List Char) → List Char
  | [] => []
  | [p] => p
  | p :: q :: ps => p ++ c :: joinCh c (q :: ps)

/-- Numeric value of a digit string, most significant first. -/
def digitsToNat (l : List Char) : Nat :=
  l.foldl (fun a c => a * 10 + (c.toNat - 48)) 0

/-- Every character is a decimal digit. -/
def allDigits (l : List Char) : Bool := l.all Char.isDigit

/-- Parse an unsigned decimal literal (`123`, `12.5`, `.5`, `7.`). -/
def parseNumCore (l : List Char) : Option Rat :=
  match splitCh '.' l with
  | [ds] =>
    if allDigits ds && !ds.isEmpty then some (digitsToNat ds) else none
  | [is, fs] =>
    if allDigits is && allDigits fs && !(is.isEmpty && fs.isEmpty) then
      some ((digitsToNat is : Rat) + (digitsToNat fs : Rat) / ((10 : Rat) ^ fs.length))
    else none
  | _ => none

/-- Parse a python float literal: optional surrounding spaces and sign,
then an unsigned decimal.  `none` models `float(s)` raising `ValueError`. -/
def parseNum (s : String) : Option Rat :=
  let l := ((s.data.dropWhile (· = ' ')).reverse.dropWhile (· = ' ')).reverse
  match l with
  | '-' :: rest => (parseNumCore rest).map (fun q => -q)
  | '+' :: rest => parseNumCore rest
  | _ => parseNumCore l

/-- `Series.replace('[\$,]', '', regex=True)` on one cell: drop every
dollar sign and comma. -/
def stripCurrency (s : String) : String :=
  ⟨s.data.filter (fun c => !(c = '$' || c = ','))⟩

/-- Parse a date in the `%d/%m/%Y` format of `pd.to_datetime`. -/
def parseDateDMY (s : String) : Option Date :=
  match splitCh '/' s.data with
  | [ds, ms, ys] =>
    if allDigits ds && !ds.isEmpty && allDigits ms && !ms.isEmpty
        && allDigits ys && !ys.isEmpty then
      let d := digitsToNat ds
      let m := digitsToNat ms
      if 1 ≤ d && d ≤ 31 && 1 ≤ m && m ≤ 12 then
        some ⟨digitsToNat ys, m, d⟩
      else none
    else none
  | _ => none

/-! ## The table -/

/-- One row: the cells keyed by column name, in column order. -/
abbrev Row := List (String × Value)

/-- The in-memory table (`pandas.DataFrame`): ordered column names and rows. -/
structure DF where
  cols : List String
  rows : List Row
deriving DecidableEq, Repr

/-- Elementwise error-propagating map (`Series.astype` raising on the
first bad element). -/
def mapME {α β : Type} (f : α → Except Err β) : List α → Except Err (List β)
  | [] => .ok []
  | a :: as =>
    match f a with
    | .error e => .error e
    | .ok b =>
      match mapME f as with
      | .error e => .error e
      | .ok bs => .ok (b :: bs)

/-- Elementwise option-propagating map (row parsing in `read_csv`). -/
def mapMO {α β : Type} (f : α → Option β) : List α → Option (List β)
  | [] => some []
  | a :: as =>
    match f a with
    | none => none
    | some b =>
      match mapMO f as with
      | none => none
      | some bs => some (b :: bs)

/-- `df[c] = df[c].map(f)`: rewrite the cells of column `c` in place. -/
def mapCol (df : DF) (c : String) (f : Value → Value) : DF :=
  ⟨df.cols, df.rows.map (fun r => r.map (fun p => if p.1 = c then (p.1, f p.2) else p))⟩

/-- Apply a fallible cell transformation to the cell if it belongs to
column `c`, keeping other cells untouched. -/
def cellE (c : String) (f : Value → Except Err Value) (p : String × Value) :
    Except Err (String × Value) :=
  if p.1 = c then
    match f p.2 with
    | .ok v => .ok (p.1, v)
    | .error e => .error e
  else .ok p

/-- `df[c] = df[c].astype(...)`: fallible in-place column rewrite. -/
def mapColE (df : DF) (c : String) (f : Value → Except Err Value) : Except Err DF :=
  match mapME (fun r => mapME (cellE c f) r) df.rows with
  | .ok rs => .ok ⟨df.cols, rs⟩
  | .error e => .error e

/-- `df[c] = ...` for a fresh derived column, appended on the right. -/
def addCol (df : DF) (c : String) (f : Row → Value) : DF :=
  ⟨df.cols ++ [c], df.rows.map (fun r => r ++ [(c, f r)])⟩

/-- `col in df.columns`, the defensive presence test of `load_data`. -/
def hasCol (df : DF) (c : String) : Bool := df.cols.contains c

/-- `df[c]` as an access that raises `KeyError` when `c` is absent. -/
def requireCol (df : DF) (c : String) : Except Err Unit :=
  if hasCol df c then .ok () else .error (.missingCol c)

/-! ## `load_data`: preprocessing (lines 16-43 of the source) -/

/-- The designated date columns of `load_data`. -/
def dateColNames : List String :=
  ["Order Date", "Detail Order Date", "Start Date", "End Date",
   "Payment Status Date", "Payment Received Date", "Invoice Date"]

/-- The designated numeric columns of `load_data`. -/
def numericColNames : List String :=
  ["Qty", "Unit Qty", "Unit Price", "Sub Total", "Total Payment",
   "Total transaction", "Trx (after disc)", "Discount", "Balance"]

/-- One cell under `pd.to_datetime(..., format='%d/%m/%Y', errors='coerce')`:
a parse failure becomes NaT (`Value.null`), never an exception. -/
def cleanDateCell (v : Value) : Value :=
  match v with
  | .str s =>
    match parseDateDMY s with
    | some d => .date d
    | none => .null
  | .date d => .date d
  | _ => .null

/-- One cell under `.replace('[\$,]', '', regex=True).astype(float)`:
strings that do not parse as a float after stripping currency punctuation
raise `ValueError`. -/
def cleanNumCell (v : Value) : Except Err Value :=
  match v with
  | .num q => .ok (.num q)
  | .null => .ok .null
  | .str s =>
    match parseNum (stripCurrency s) with
    | some q => .ok (.num q)
    | none => .error (.floatParse s)
  | .date _ => .error (.floatParse "datetime")

/-- The date-conversion loop: each designated date column present in the
table is coerced cell by cell; absent columns are skipped. -/
def cleanDates (df : DF) : DF :=
  dateColNames.foldl (fun d c => if hasCol d c then mapCol d c cleanDateCell else d) df

/-- The numeric-cleaning loop over a given list of column names. -/
def cleanNumsGo : List String → DF → Except Err DF
  | [], d => .ok d
  | c :: cs, d =>
    if hasCol d c then
      match mapColE d c cleanNumCell with
      | .ok d2 => cleanNumsGo cs d2
      | .error e => .error e
    else cleanNumsGo cs d

/-- The numeric-cleaning loop of `load_data`. -/
def cleanNums (df : DF) : Except Err DF := cleanNumsGo numericColNames df

/-- Zero-padded rendering helpers for dates and periods. -/
def pad2 (n : Nat) : String := if n < 10 then "0" ++ toString n else toString n

/-- Four-digit zero-padded year. -/
def pad4 (n : Nat) : String :=
  if n < 10 then "000" ++ toString n
  else if n < 100 then "00" ++ toString n
  else if n < 1000 then "0" ++ toString n
  else toString n

/-- `df['Order Date'].dt.to_period('M')` on one row. -/
def monthCell (r : Row) : Value :=
  match r.lookup "Order Date" with
  | some (.date d) => .str (pad4 d.year ++ "-" ++ pad2 d.month)
  | _ => .null

/-- `df['Order Date'].dt.year` on one row (NaN for NaT). -/
def yearCell (r : Row) : Value :=
  match r.lookup "Order Date" with
  | some (.date d) => .num d.year
  | _ => .null

/-- Lines 39-41: derive `Order Month` and `Order Year` when `Order Date`
is present. -/
def addMonthYear (df : DF) : DF :=
  if hasCol df "Order Date" then
    addCol (addCol df "Order Month" monthCell) "Order Year" yearCell
  else df

/-- `load_data` (without the file read): date coercion, numeric cleaning,
then the derived month/year columns. -/
def load_data (df : DF) : Except Err DF :=
  match cleanNums (cleanDates df) with
  | .ok d => .ok (addMonthYear d)
  | .error e => .error e

/-! ## The filter pipeline of `main` (lines 50-92) -/

/-- The user-selected widget values: the date range, and for each
categorical dropdown either a concrete value or `none` for `'All'`. -/
structure Selections where
  startD : Date
  endD : Date
  status : Option String
  payment : Option String
  product : Option String
  source : Option String
deriving DecidableEq, Repr

/-- A pandas boolean mask: one Bool per row. -/
def maskOf (df : DF) (p : Row → Bool) : List Bool := df.rows.map p

/-- Keep the rows whose mask entry is `true` (`df[mask]`). -/
def zipKeep : List Row → List Bool → List Row
  | [], _ => []
  | _, [] => []
  | r :: rs, b :: bs => if b then r :: zipKeep rs bs else zipKeep rs bs

/-- `df[mask]`: boolean-mask row selection. -/
def applyMask (df : DF) (m : List Bool) : DF := ⟨df.cols, zipKeep df.rows m⟩

/-- The row predicate of line 68:
`(df['Order Date'] >= start_date) & (df['Order Date'] <= end_date)`.
A NaT order date compares `False` on both sides. -/
def datePred (s e : Date) (r : Row) : Bool :=
  match r.lookup "Order Date" with
  | some (.date d) => dateLe s d && dateLe d e
  | _ => false

/-- Line 68: the inclusive date-range filter. -/
def filterByDate (df : DF) (s e : Date) : DF :=
  applyMask df (maskOf df (datePred s e))

/-- `list(df[c].unique())`: the dropdown options; raises on a missing
column, keeps the first occurrence of each value (NaN included). -/
def uniqueList (df : DF) (c : String) : Except Err (List Value) :=
  if hasCol df c then
    .ok ((df.rows.map (fun r => (r.lookup c).getD .null)).dedup)
  else .error (.missingCol c)

/-- `df[c] == v` on one row: equality of an object cell with a selected
string; NaN and non-string cells compare `False`. -/
def cellEqStr (c v : String) (r : Row) : Bool :=
  match r.lookup c with
  | some (.str s) => s == v
  | _ => false

/-- One categorical filter block (lines 70-92): build the dropdown options
from the current table, then narrow by the selected value unless `'All'`. -/
def filterStep (df : DF) (c : String) (sel : Option String) : Except Err DF :=
  match uniqueList df c with
  | .error e => .error e
  | .ok _ =>
    match sel with
    | none => .ok df
    | some v => .ok (applyMask df (maskOf df (cellEqStr c v)))

/-- Stage 1: the date-range filter applied to the loaded table. -/
def stage1 (df : DF) (sel : Selections) : DF :=
  filterByDate df sel.startD sel.endD

/-- Stage 2: the `Order Status` filter on the output of stage 1. -/
def stage2 (df : DF) (sel : Selections) : Except Err DF :=
  filterStep (stage1 df sel) "Order Status" sel.status

/-- Stage 3: the `Payment Status` filter on the output of stage 2. -/
def stage3 (df : DF) (sel : Selections) : Except Err DF :=
  match stage2 df sel with
  | .ok d => filterStep d "Payment Status" sel.payment
  | .error e => .error e

/-- Stage 4: the `Tipe Produk` filter on the output of stage 3. -/
def stage4 (df : DF) (sel : Selections) : Except Err DF :=
  match stage3 df sel with
  | .ok d => filterStep d "Tipe Produk" sel.product
  | .error e => .error e

/-- The whole filter pipeline (lines 64-92): date range, then the four
categorical filters, each applied to the previous stage's output. -/
def filterPipeline (df : DF) (sel : Selections) : Except Err DF :=
  match stage4 df sel with
  | .ok d => filterStep d "Order Source" sel.source
  | .error e => .error e

/-! ## Aggregation (KPIs, group-bys, top-N) -/

/-- Numeric reading of an optional cell; pandas sums skip NaN. -/
def numOrZero : Option Value → Rat
  | some (.num q) => q
  | _ => 0

/-- `df[c].sum()` with the default `skipna=True`. -/
def seriesSum (df : DF) (c : String) : Rat :=
  df.rows.foldl (fun a r => a + numOrZero (r.lookup c)) 0

/-- `df[c].sum()` as the raising access of line 106. -/
def seriesSumE (df : DF) (c : String) : Except Err Rat :=
  if hasCol df c then .ok (seriesSum df c) else .error (.missingCol c)

/-- The non-null numeric entries of a column. -/
def numEntries (df : DF) (c : String) : List Rat :=
  df.rows.filterMap (fun r =>
    match r.lookup c with
    | some (.num q) => some q
    | _ => none)

/-- `df[c].mean()`: mean of the non-null entries, NaN when there are none. -/
def seriesMean (df : DF) (c : String) : Option Rat :=
  if (numEntries df c).length = 0 then none
  else some ((numEntries df c).sum / ((numEntries df c).length : Rat))

/-- `df[c].mean()` (line 110) as the raising access. -/
def seriesMeanE (df : DF) (c : String) : Except Err (Option Rat) :=
  if hasCol df c then .ok (seriesMean df c) else .error (.missingCol c)

/-- `df[c].nunique()`: number of distinct non-null values. -/
def nunique (df : DF) (c : String) : Nat :=
  (df.rows.filterMap (fun r =>
    match r.lookup c with
    | some .null => none
    | some v => some v
    | none => none)).dedup.length

/-- `df[c].nunique()` (line 114) as the raising access. -/
def nuniqueE (df : DF) (c : String) : Except Err Nat :=
  if hasCol df c then .ok (nunique df c) else .error (.missingCol c)

/-- `df.groupby(key)[val].sum()`: one `(key, sum)` pair per distinct
string key (pandas drops NaN group keys). -/
def groupBySum (df : DF) (key val : String) : List (String × Rat) :=
  let ks := (df.rows.filterMap (fun r =>
    match r.lookup key with
    | some (.str k) => some k
    | _ => none)).dedup
  ks.map (fun k =>
    (k, (df.rows.filter (cellEqStr key k)).foldl (fun a r => a + numOrZero (r.lookup val)) 0))

/-- The guarded group-by of the revenue charts (lines 154, 168). -/
def groupBySumE (df : DF) (key val : String) : Except Err (List (String × Rat)) :=
  if hasCol df key then
    if hasCol df val then .ok (groupBySum df key val)
    else .error (.missingCol val)
  else .error (.missingCol key)

/-- The order of `sort_values(ascending=False)`: descending on the metric. -/
def revGe (a b : String × Rat) : Prop := b.2 ≤ a.2

instance : DecidableRel revGe := fun a b => (inferInstance : Decidable (b.2 ≤ a.2))

instance : IsTotal (String × Rat) revGe := ⟨fun a b => le_total b.2 a.2⟩

instance : IsTrans (String × Rat) revGe := ⟨fun _ _ _ h1 h2 => le_trans h2 h1⟩

/-- `sort_values(metric, ascending=False)` on a group-by result. -/
def sortValsDesc (l : List (String × Rat)) : List (String × Rat) :=
  List.insertionSort revGe l

/-- Lines 186-187 / 201-202: group, sort descending, `head(10)`. -/
def topTen (df : DF) (key val : String) : List (String × Rat) :=
  (sortValsDesc (groupBySum df key val)).take 10

/-- The guarded ranking (the group-by raises on a missing column). -/
def topTenE (df : DF) (key val : String) : Except Err (List (String × Rat)) :=
  if hasCol df key then
    if hasCol df val then .ok (topTen df key val)
    else .error (.missingCol val)
  else .error (.missingCol key)

/-! ## CSV export (line 219) and re-parsing -/

/-- Up to `fuel` decimal digits of the fraction `r / d` by long division. -/
def fracDigits : Nat → Nat → Nat → List Char
  | 0, _, _ => []
  | _ + 1, 0, _ => []
  | f + 1, r, d => Nat.digitChar (r * 10 / d) :: fracDigits f (r * 10 % d) d

/-- Decimal rendering of a rational, float-style (`100.0`, `-2.5`). -/
def renderRat (q : Rat) : String :=
  let sign := if q.num < 0 then "-" else ""
  let a := q.num.natAbs
  let fs := fracDigits 12 (a % q.den) q.den
  sign ++ toString (a / q.den) ++ "." ++ (if fs.isEmpty then "0" else ⟨fs⟩)

/-- ISO rendering of a datetime cell, as `to_csv` writes it. -/
def renderDate (d : Date) : String :=
  pad4 d.year ++ "-" ++ pad2 d.month ++ "-" ++ pad2 d.day

/-- The text `to_csv` writes for one cell (NaN becomes the empty field). -/
def renderValue : Value → String
  | .null => ""
  | .str s => s
  | .num q => renderRat q
  | .date d => renderDate d

/-- A field needs quoting when it holds a separator, quote or newline. -/
def needsQuote (l : List Char) : Bool :=
  l.any (fun c => c = ',' || c = '"' || c = '\n' || c = '\r')

/-- Double every quote character (CSV escaping). -/
def escQuotes : List Char → List Char
  | [] => []
  | c :: cs => if c = '"' then '"' :: '"' :: escQuotes cs else c :: escQuotes cs

/-- Minimal quoting, as `to_csv` does by default. -/
def quoteField (l : List Char) : List Char :=
  if needsQuote l then '"' :: (escQuotes l ++ ['"']) else l

/-- The rendered fields of one row, in column order. -/
def rowCells (r : Row) : List (List Char) :=
  r.map (fun p => (renderValue p.2).data)

/-- One CSV line: quoted fields joined by commas. -/
def csvLine (fs : List (List Char)) : List Char :=
  joinCh ',' (fs.map quoteField)

/-- `df.to_csv(index=False)` as characters: header line, one line per row,
a trailing newline. -/
def toCsvData (df : DF) : List Char :=
  joinCh '\n' (csvLine (df.cols.map String.data) :: df.rows.map (fun r => csvLine (rowCells r)))
    ++ ['\n']

/-- `df.to_csv(index=False)` (line 219). -/
def toCsv (df : DF) : String := ⟨toCsvData df⟩

/-- The tokenizer state of the CSV reader: inside an unquoted field,
inside a quoted field, or just past a closing quote (where a second quote
is an escaped quote and only a separator, newline or end of input may
follow otherwise). -/
inductive CsvMode where
  | plain
  | quoted
  | closed
deriving DecidableEq, Repr

/-- The record tokenizer of `pd.read_csv`, one character at a time:
`field` is the field being read, `record` the fields finished on the
current line, `records` the finished lines.  Opening quotes begin a quoted
field, doubled quotes inside one stand for a literal quote, separators
and newlines inside quotes are ordinary text, blank lines are skipped
(`skip_blank_lines=True`), and a stray character after a closing quote or
an unterminated quote is a parse error. -/
def csvLoop : CsvMode → List Char → List (List Char) → List (List (List Char)) →
    List Char → Option (List (List (List Char)))
  | .quoted, _, _, _, [] => none
  | .plain, field, record, records, [] =>
    if field.isEmpty && record.isEmpty then some records
    else some (records ++ [record ++ [field]])
  | .closed, field, record, records, [] => some (records ++ [record ++ [field]])
  | .plain, field, record, records, c :: cs =>
    if c = '"' then
      if field.isEmpty then csvLoop .quoted field record records cs
      else csvLoop .plain (field ++ [c]) record records cs
    else if c = ',' then csvLoop .plain [] (record ++ [field]) records cs
    else if c = '\n' then
      if field.isEmpty && record.isEmpty then csvLoop .plain [] [] records cs
      else csvLoop .plain [] [] (records ++ [record ++ [field]]) cs
    else csvLoop .plain (field ++ [c]) record records cs
  | .quoted, field, record, records, c :: cs =>
    if c = '"' then csvLoop .closed field record records cs
    else csvLoop .quoted (field ++ [c]) record records cs
  | .closed, field, record, records, c :: cs =>
    if c = '"' then csvLoop .quoted (field ++ [c]) record records cs
    else if c = ',' then csvLoop .plain [] (record ++ [field]) records cs
    else if c = '\n' then csvLoop .plain [] [] (records ++ [record ++ [field]]) cs
    else none

/-- Tokenize a CSV text into its records (lists of unquoted fields). -/
def csvRecords (l : List Char) : Option (List (List (List Char))) :=
  csvLoop .plain [] [] [] l

/-- Turn one tokenized record into a row keyed by the header (the arity
must match the header's). -/
def parseRow (cols : List String) (fs : List (List Char)) : Option Row :=
  if fs.length = cols.length then
    some (cols.zip (fs.map (fun f => Value.str (String.mk f))))
  else none

/-- `pd.read_csv` over the exported bytes: tokenize the quoted records,
take the first as the header, key each remaining record by it; the cells
come back as text. -/
def parseCsv (s : String) : Option DF :=
  match csvRecords s.data with
  | none => none
  | some [] => none
  | some (h :: ls) =>
    match mapMO (parseRow (h.map (fun f => String.mk f))) ls with
    | some rows => some ⟨h.map (fun f => String.mk f), rows⟩
    | none => none

/-- The filtered table as `read_csv` reproduces it: every cell replaced by
its `to_csv` text. -/
def stringifyDF (df : DF) : DF :=
  ⟨df.cols, df.rows.map (fun r => r.map (fun p => (p.1, Value.str (renderValue p.2))))⟩

/-- Table equivalence across the CSV boundary: same columns and, cell by
cell, the same rendered text. -/
def csvEquiv (a b : DF) : Prop :=
  a.cols = b.cols ∧
    a.rows.map (List.map (fun p => (p.1, renderValue p.2)))
      = b.rows.map (List.map (fun p => (p.1, renderValue p.2)))

/-! ## `main` (lines 46-225) -/

/-- Everything `main` renders from the filtered table. -/
structure Output where
  totalOrders : Nat
  totalRevenue : Rat
  avgOrderValue : Option Rat
  uniqueCustomers : Nat
  revenueByProduct : List (String × Rat)
  revenueBySource : List (String × Rat)
  topProductsRevenue : List (String × Rat)
  topProductsQty : List (String × Rat)
  rawRows : DF
  exportCsv : String
deriving DecidableEq, Repr

/-- The data path of `main`: load, access `Order Date` for the widget
bounds (line 54), run the filter pipeline, then every KPI, chart input and
the CSV export, each reading the filtered table directly.  Any `KeyError`
or `ValueError` on the way aborts the run. -/
def main_model (raw : DF) (sel : Selections) : Except Err Output :=
  match load_data raw with
  | .error e => .error e
  | .ok df =>
  match requireCol df "Order Date" with
  | .error e => .error e
  | .ok _ =>
  match filterPipeline df sel with
  | .error e => .error e
  | .ok filtered =>
  match seriesSumE filtered "Sub Total" with
  | .error e => .error e
  | .ok totalRevenue =>
  match seriesMeanE filtered "Sub Total" with
  | .error e => .error e
  | .ok avgOrderValue =>
  match nuniqueE filtered "Create by" with
  | .error e => .error e
  | .ok uniqueCustomers =>
  match requireCol filtered "Order ID" with
  | .error e => .error e
  | .ok _ =>
  match groupBySumE filtered "Tipe Produk" "Sub Total" with
  | .error e => .error e
  | .ok byProduct =>
  match groupBySumE filtered "Order Source" "Sub Total" with
  | .error e => .error e
  | .ok bySource =>
  match topTenE filtered "Product Name" "Sub Total" with
  | .error e => .error e
  | .ok topRev =>
  match topTenE filtered "Product Name" "Qty" with
  | .error e => .error e
  | .ok topQty =>
    .ok { totalOrders := filtered.rows.length
          totalRevenue := totalRevenue
          avgOrderValue := avgOrderValue
          uniqueCustomers := uniqueCustomers
          revenueByProduct := sortValsDesc byProduct
          revenueBySource := sortValsDesc bySource
          topProductsRevenue := topRev
          topProductsQty := topQty
          rawRows := filtered
          exportCsv := toCsv filtered }

instance {ε α : Type} [DecidableEq ε] [DecidableEq α] : DecidableEq (Except ε α) :=
  fun a b =>
    match a, b with
    | .ok x, .ok y =>
      if h : x = y then isTrue (by rw [h]) else isFalse (fun hc => h (Except.ok.inj hc))
    | .error x, .error y =>
      if h : x = y then isTrue (by rw [h]) else isFalse (fun hc => h (Except.error.inj hc))
    | .ok _, .error _ => isFalse (fun hc => Except.noConfusion hc)
    | .error _, .ok _ => isFalse (fun hc => Except.noConfusion hc)

/-- What the user sees: either the rendered dashboard or an error banner. -/
inductive RunResult where
  | rendered (o : Output)
  | message (s : String)
deriving DecidableEq, Repr

/-- The user-facing text of an exception. -/
def errMsg : Err → String
  | .missingCol c => "Error: " ++ c
  | .floatParse s => "Error: could not convert string to float: " ++ s

/-- Modelled from the spec: the uploaded-CSV variant of the app (the
repository's other entry point, not present under `src/`) runs the same
data path on the uploaded table inside a single top-level try/except that
converts any exception into a user-facing message and stops before
rendering results. -/
def mainUpload (upload : DF) (sel : Selections) : RunResult :=
  match main_model upload sel with
  | .ok o => .rendered o
  | .error e => .message (errMsg e)

/-- A row carries a parsed (non-null) order date. -/
def hasDateCell (r : Row) : Bool :=
  match r.lookup "Order Date" with
  | some (.date _) => true
  | _ => false

/-! ## Concrete sample data for witnesses and counterexamples -/

/-- A wide date range with every dropdown left on `'All'`. -/
def wsel : Selections := ⟨⟨2020, 1, 1⟩, ⟨2030, 1, 1⟩, none, none, none, none⟩

/-- A table whose `Qty` column holds an unparseable string. -/
def wbadNum : DF := ⟨["Qty"], [[("Qty", Value.str "abc")]]⟩

/-- A table without the `Order Date` column. -/
def cdfNoOD : DF := ⟨["Sub Total"], [[("Sub Total", Value.num 5)]]⟩

/-- A table with none of the designated date or numeric columns. -/
def wplain : DF := ⟨["Foo"], [[("Foo", Value.str "x")]]⟩

/-- The columns `main` touches. -/
def wfullCols : List String :=
  ["Order Date", "Order ID", "Order Status", "Payment Status", "Tipe Produk",
   "Order Source", "Sub Total", "Qty", "Create by", "Product Name"]

/-- Sample order row 1 (raw, as read from the CSV). -/
def wrow1 : Row :=
  [("Order Date", Value.str "13/05/2021"), ("Order ID", Value.str "A1"),
   ("Order Status", Value.str "Done"), ("Payment Status", Value.str "Paid"),
   ("Tipe Produk", Value.str "Food"), ("Order Source", Value.str "Web"),
   ("Sub Total", Value.num 100), ("Qty", Value.num 2),
   ("Create by", Value.str "ana"), ("Product Name", Value.str "Apple")]

/-- Sample order row 2 (raw). -/
def wrow2 : Row :=
  [("Order Date", Value.str "20/05/2021"), ("Order ID", Value.str "A2"),
   ("Order Status", Value.str "Done"), ("Payment Status", Value.str "Unpaid"),
   ("Tipe Produk", Value.str "Drink"), ("Order Source", Value.str "App"),
   ("Sub Total", Value.num 200), ("Qty", Value.num 3),
   ("Create by", Value.str "bob"), ("Product Name", Value.str "Juice")]

/-- Sample order row 3 (raw) whose order date does not parse. -/
def wrow3 : Row :=
  [("Order Date", Value.str "oops"), ("Order ID", Value.str "A3"),
   ("Order Status", Value.str "Done"), ("Payment Status", Value.str "Paid"),
   ("Tipe Produk", Value.str "Food"), ("Order Source", Value.str "Web"),
   ("Sub Total", Value.num 50), ("Qty", Value.num 1),
   ("Create by", Value.str "ana"), ("Product Name", Value.str "Apple")]

/-- Row 3 as `load_data` leaves it: NaT order date, derived columns null. -/
def wrow3L : Row :=
  [("Order Date", Value.null), ("Order ID", Value.str "A3"),
   ("Order Status", Value.str "Done"), ("Payment Status", Value.str "Paid"),
   ("Tipe Produk", Value.str "Food"), ("Order Source", Value.str "Web"),
   ("Sub Total", Value.num 50), ("Qty", Value.num 1),
   ("Create by", Value.str "ana"), ("Product Name", Value.str "Apple"),
   ("Order Month", Value.null), ("Order Year", Value.null)]

/-- A two-row sample upload on which the whole dashboard succeeds. -/
def wfull : DF := ⟨wfullCols, [wrow1, wrow2]⟩

/-- The sample upload extended with the bad-date row. -/
def wmix : DF := ⟨wfullCols, [wrow1, wrow2, wrow3]⟩

/-- An already-loaded table (dates parsed) for exercising the pipeline. -/
def wclean : DF :=
  ⟨["Order Date", "Order Status", "Payment Status", "Tipe Produk", "Order Source"],
   [[("Order Date", Value.date ⟨2021, 5, 13⟩), ("Order Status", Value.str "Done"),
     ("Payment Status", Value.str "Paid"), ("Tipe Produk", Value.str "Food"),
     ("Order Source", Value.str "Web")],
    [("Order Date", Value.date ⟨2021, 5, 20⟩), ("Order Status", Value.str "Done"),
     ("Payment Status", Value.str "Unpaid"), ("Tipe Produk", Value.str "Drink"),
     ("Order Source", Value.str "App")]]⟩

/-- A small filtered table for the CSV round-trip witness. -/
def wcsv : DF :=
  ⟨["A", "B"],
   [[("A", Value.str "x"), ("B", Value.num 3)],
    [("A", Value.null), ("B", Value.str "y")]]⟩

/-- A filtered table whose cells contain separators, quotes and newlines:
`to_csv` quotes such fields and `read_csv` restores them. -/
def wqcsv : DF :=
  ⟨["A", "B"],
   [[("A", Value.str "x,y"), ("B", Value.num 3)],
    [("A", Value.str "say \"hi\""), ("B", Value.str "two\nlines")],
    [("A", Value.null), ("B", Value.str "plain")]]⟩

/-- Row 1 after `load_data`: date parsed, derived columns appended. -/
def wrow1L : Row :=
  [("Order Date", Value.date ⟨2021, 5, 13⟩), ("Order ID", Value.str "A1"),
   ("Order Status", Value.str "Done"), ("Payment Status", Value.str "Paid"),
   ("Tipe Produk", Value.str "Food"), ("Order Source", Value.str "Web"),
   ("Sub Total", Value.num 100), ("Qty", Value.num 2),
   ("Create by", Value.str "ana"), ("Product Name", Value.str "Apple"),
   ("Order Month", Value.str "2021-05"), ("Order Year", Value.num 2021)]

/-- Row 2 after `load_data`. -/
def wrow2L : Row :=
  [("Order Date", Value.date ⟨2021, 5, 20⟩), ("Order ID", Value.str "A2"),
   ("Order Status", Value.str "Done"), ("Payment Status", Value.str "Unpaid"),
   ("Tipe Produk", Value.str "Drink"), ("Order Source", Value.str "App"),
   ("Sub Total", Value.num 200), ("Qty", Value.num 3),
   ("Create by", Value.str "bob"), ("Product Name", Value.str "Juice"),
   ("Order Month", Value.str "2021-05"), ("Order Year", Value.num 2021)]

/-- The filtered table produced from the sample uploads. -/
def wfiltered : DF := ⟨wfullCols ++ ["Order Month", "Order Year"], [wrow1L, wrow2L]⟩

/-- The dashboard output on the sample uploads. -/
def wout : Output :=
  { totalOrders := 2
    totalRevenue := 300
    avgOrderValue := some 150
    uniqueCustomers := 2
    revenueByProduct := [("Drink", 200), ("Food", 100)]
    revenueBySource := [("App", 200), ("Web", 100)]
    topProductsRevenue := [("Juice", 200), ("Apple", 100)]
    topProductsQty := [("Juice", 3), ("Apple", 2)]
    rawRows := wfiltered
    exportCsv := "Order Date,Order ID,Order Status,Payment Status,Tipe Produk,Order Source,Sub Total,Qty,Create by,Product Name,Order Month,Order Year\n2021-05-13,A1,Done,Paid,Food,Web,100.0,2.0,ana,Apple,2021-05,2021.0\n2021-05-20,A2,Done,Unpaid,Drink,App,200.0,3.0,bob,Juice,2021-05,2021.0\n" }

/-! # Lemmas about boolean-mask selection -/

theorem zipKeep_map (p : Row → Bool) :
    ∀ l : List Row, zipKeep l (l.map p) = l.filter p
  | [] => rfl
  | r :: rs => by
    simp only [List.map_cons, zipKeep, List.filter_cons]
    cases hp : p r <;> simp [zipKeep_map p rs, hp]

theorem applyMask_maskOf_rows (df : DF) (p : Row → Bool) :
    (applyMask df (maskOf df p)).rows = df.rows.filter p := by
  simp [applyMask, maskOf, zipKeep_map]

theorem filterByDate_rows (df : DF) (s e : Date) :
    (filterByDate df s e).rows = df.rows.filter (datePred s e) :=
  applyMask_maskOf_rows df (datePred s e)

theorem datePred_eq_true (s e : Date) (r : Row) :
    datePred s e r = true ↔
      ∃ d, r.lookup "Order Date" = some (Value.date d) ∧
        dateLe s d = true ∧ dateLe d e = true := by
  unfold datePred
  cases h : r.lookup "Order Date" with
  | none => simp
  | some v => cases v <;> simp [Bool.and_eq_true]

/-- C5: for every loaded table and selected bounds, the date-range filter
keeps a row exactly when its `Order Date` is a parsed date `d` with
`start <= d <= end` (inclusive on both sides). -/
theorem c5_date_filter_inclusive_bounds (df : DF) (s e : Date) (r : Row) :
    r ∈ (filterByDate df s e).rows ↔
      r ∈ df.rows ∧ ∃ d, r.lookup "Order Date" = some (Value.date d) ∧
        dateLe s d = true ∧ dateLe d e = true := by
  rw [filterByDate_rows, List.mem_filter, datePred_eq_true]

/-! # The sequential filter pipeline -/

theorem filterStep_ok_rows {df d2 : DF} {c : String} {sel : Option String}
    (h : filterStep df c sel = .ok d2) : List.Sublist d2.rows df.rows := by
  unfold filterStep at h
  cases hu : uniqueList df c with
  | error e => rw [hu] at h; exact Except.noConfusion h
  | ok l =>
    rw [hu] at h
    cases sel with
    | none =>
      injection h with h2
      rw [← h2]
    | some v =>
      injection h with h2
      rw [← h2, applyMask_maskOf_rows]
      exact List.filter_sublist _

theorem stage1_rows_sublist (df : DF) (sel : Selections) :
    List.Sublist (stage1 df sel).rows df.rows := by
  unfold stage1
  rw [filterByDate_rows]
  exact List.filter_sublist _

theorem stage3_ok {df : DF} {sel : Selections} {d3 : DF}
    (h : stage3 df sel = .ok d3) :
    ∃ d2, stage2 df sel = .ok d2 ∧ filterStep d2 "Payment Status" sel.payment = .ok d3 := by
  unfold stage3 at h
  cases h2 : stage2 df sel with
  | error e => rw [h2] at h; exact Except.noConfusion h
  | ok d2 => rw [h2] at h; exact ⟨d2, rfl, h⟩

theorem stage4_ok {df : DF} {sel : Selections} {d4 : DF}
    (h : stage4 df sel = .ok d4) :
    ∃ d3, stage3 df sel = .ok d3 ∧ filterStep d3 "Tipe Produk" sel.product = .ok d4 := by
  unfold stage4 at h
  cases h3 : stage3 df sel with
  | error e => rw [h3] at h; exact Except.noConfusion h
  | ok d3 => rw [h3] at h; exact ⟨d3, rfl, h⟩

theorem pipeline_ok {df : DF} {sel : Selections} {d5 : DF}
    (h : filterPipeline df sel = .ok d5) :
    ∃ d4, stage4 df sel = .ok d4 ∧ filterStep d4 "Order Source" sel.source = .ok d5 := by
  unfold filterPipeline at h
  cases h4 : stage4 df sel with
  | error e => rw [h4] at h; exact Except.noConfusion h
  | ok d4 => rw [h4] at h; exact ⟨d4, rfl, h⟩

theorem pipeline_rows_sublist {df : DF} {sel : Selections} {d5 : DF}
    (h : filterPipeline df sel = .ok d5) : List.Sublist d5.rows df.rows := by
  obtain ⟨d4, h4, hs5⟩ := pipeline_ok h
  obtain ⟨d3, h3, hs4⟩ := stage4_ok h4
  obtain ⟨d2, h2, hs3⟩ := stage3_ok h3
  exact (((((filterStep_ok_rows hs5).trans (filterStep_ok_rows hs4)).trans
    (filterStep_ok_rows hs3)).trans (filterStep_ok_rows h2)).trans
    (stage1_rows_sublist df sel))

/-- C9: the five filters are applied sequentially, each as a boolean mask
on the previous stage's output, so each stage's rows form a sublist of the
previous stage's rows; consequently every row of the final filtered table
is a row of the loaded table and the row count never increases. -/
theorem c9_sequential_mask_pipeline (df : DF) (sel : Selections) :
    List.Sublist (stage1 df sel).rows df.rows ∧
    (∀ d2, stage2 df sel = .ok d2 → List.Sublist d2.rows (stage1 df sel).rows) ∧
    (∀ d2 d3, stage2 df sel = .ok d2 → stage3 df sel = .ok d3 →
      List.Sublist d3.rows d2.rows) ∧
    (∀ d3 d4, stage3 df sel = .ok d3 → stage4 df sel = .ok d4 →
      List.Sublist d4.rows d3.rows) ∧
    (∀ d4 d5, stage4 df sel = .ok d4 → filterPipeline df sel = .ok d5 →
      List.Sublist d5.rows d4.rows) ∧
    (∀ d5, filterPipeline df sel = .ok d5 →
      List.Sublist d5.rows df.rows ∧ d5.rows.length ≤ df.rows.length) := by
  refine ⟨stage1_rows_sublist df sel, ?_, ?_, ?_, ?_, ?_⟩
  · intro d2 h2
    exact filterStep_ok_rows h2
  · intro d2 d3 h2 h3
    obtain ⟨d2b, h2b, hf⟩ := stage3_ok h3
    rw [h2] at h2b
    injection h2b with h2c
    rw [h2c]
    exact filterStep_ok_rows hf
  · intro d3 d4 h3 h4
    obtain ⟨d3b, h3b, hf⟩ := stage4_ok h4
    rw [h3] at h3b
    injection h3b with h3c
    rw [h3c]
    exact filterStep_ok_rows hf
  · intro d4 d5 h4 h5
    obtain ⟨d4b, h4b, hf⟩ := pipeline_ok h5
    rw [h4] at h4b
    injection h4b with h4c
    rw [h4c]
    exact filterStep_ok_rows hf
  · intro d5 h5
    exact ⟨pipeline_rows_sublist h5, (pipeline_rows_sublist h5).length_le⟩

/-- Witness for C9: a concrete pipeline run where every stage succeeds and
the guarantees of `c9_sequential_mask_pipeline` hold. -/
theorem c9_witness :
    stage2 wclean wsel = Except.ok wclean ∧
    filterPipeline wclean wsel = Except.ok wclean ∧
    List.Sublist wclean.rows wclean.rows ∧
    wclean.rows.length ≤ wclean.rows.length := by
  refine ⟨rfl, rfl, ?_, ?_⟩
  · exact ((c9_sequential_mask_pipeline wclean wsel).2.2.2.2.2 wclean rfl).1
  · exact ((c9_sequential_mask_pipeline wclean wsel).2.2.2.2.2 wclean rfl).2

/-! # Inverting the guarded accesses and the main data path -/

theorem seriesSumE_ok {df : DF} {c : String} {q : Rat}
    (h : seriesSumE df c = .ok q) : q = seriesSum df c := by
  unfold seriesSumE at h
  split at h
  · injection h with h2
    exact h2.symm
  · exact Except.noConfusion h

theorem seriesMeanE_ok {df : DF} {c : String} {m : Option Rat}
    (h : seriesMeanE df c = .ok m) : m = seriesMean df c := by
  unfold seriesMeanE at h
  split at h
  · injection h with h2
    exact h2.symm
  · exact Except.noConfusion h

theorem nuniqueE_ok {df : DF} {c : String} {n : Nat}
    (h : nuniqueE df c = .ok n) : n = nunique df c := by
  unfold nuniqueE at h
  split at h
  · injection h with h2
    exact h2.symm
  · exact Except.noConfusion h

theorem groupBySumE_ok {df : DF} {k v : String} {l : List (String × Rat)}
    (h : groupBySumE df k v = .ok l) : l = groupBySum df k v := by
  unfold groupBySumE at h
  split at h
  · split at h
    · injection h with h2
      exact h2.symm
    · exact Except.noConfusion h
  · exact Except.noConfusion h

theorem topTenE_ok {df : DF} {k v : String} {l : List (String × Rat)}
    (h : topTenE df k v = .ok l) : l = topTen df k v := by
  unfold topTenE at h
  split at h
  · split at h
    · injection h with h2
      exact h2.symm
    · exact Except.noConfusion h
  · exact Except.noConfusion h

/-- Inversion of a successful dashboard run: the table was loaded, the
pipeline succeeded on it, and every rendered figure is the corresponding
aggregate of the filtered table. -/
theorem main_model_ok {raw : DF} {sel : Selections} {out : Output}
    (h : main_model raw sel = .ok out) :
    ∃ df filtered, load_data raw = .ok df ∧ filterPipeline df sel = .ok filtered ∧
      out = { totalOrders := filtered.rows.length
              totalRevenue := seriesSum filtered "Sub Total"
              avgOrderValue := seriesMean filtered "Sub Total"
              uniqueCustomers := nunique filtered "Create by"
              revenueByProduct := sortValsDesc (groupBySum filtered "Tipe Produk" "Sub Total")
              revenueBySource := sortValsDesc (groupBySum filtered "Order Source" "Sub Total")
              topProductsRevenue := topTen filtered "Product Name" "Sub Total"
              topProductsQty := topTen filtered "Product Name" "Qty"
              rawRows := filtered
              exportCsv := toCsv filtered } := by
  unfold main_model at h
  repeat' split at h
  all_goals try exact Except.noConfusion h
  injection h with h2
  subst h2
  rename_i x1 dfL h1 x2 u1 hu1 x3 filt h3 x4 tr h4 x5 av h5 x6 uc h6 x7 u2
    h7 x8 bp h8 x9 bs h9 x10 tr10 h10 x11 tq11 h11
  refine ⟨dfL, filt, h1, h3, ?_⟩
  simp only [Output.mk.injEq, true_and, and_true]
  refine ⟨seriesSumE_ok h4, seriesMeanE_ok h5, nuniqueE_ok h6, ?_, ?_,
    topTenE_ok h10, topTenE_ok h11⟩
  · rw [groupBySumE_ok h8]
  · rw [groupBySumE_ok h9]

/-! # C10: null order dates never survive the pipeline -/

theorem pipeline_rows_sublist_stage1 {df : DF} {sel : Selections} {d5 : DF}
    (h : filterPipeline df sel = .ok d5) :
    List.Sublist d5.rows (stage1 df sel).rows := by
  obtain ⟨d4, h4, hs5⟩ := pipeline_ok h
  obtain ⟨d3, h3, hs4⟩ := stage4_ok h4
  obtain ⟨d2, h2, hs3⟩ := stage3_ok h3
  exact (((filterStep_ok_rows hs5).trans (filterStep_ok_rows hs4)).trans
    (filterStep_ok_rows hs3)).trans (filterStep_ok_rows h2)

theorem datePred_hasDateCell {s e : Date} {r : Row}
    (h : datePred s e r = true) : hasDateCell r = true := by
  unfold datePred at h
  unfold hasDateCell
  cases hl : r.lookup "Order Date" with
  | none => rw [hl] at h; exact Bool.noConfusion h
  | some v => cases v <;> rw [hl] at h <;> first | rfl | exact Bool.noConfusion h

/-- C10: for every upload and every selection of filters (any date range
included), a row whose `Order Date` is null — in particular one whose raw
date failed to parse — is excluded by the date filter and therefore never
reaches the filtered table that feeds every KPI, chart, raw-data view and
the CSV export. -/
theorem c10_null_order_date_excluded (raw : DF) (sel : Selections) (out : Output)
    (r : Row) (h : main_model raw sel = .ok out) (hr : hasDateCell r = false) :
    r ∉ out.rawRows.rows := by
  obtain ⟨df, filt, hld, hfp, hout⟩ := main_model_ok h
  have hraw : out.rawRows = filt := by rw [hout]
  rw [hraw]
  intro hmem
  have h1 : r ∈ (stage1 df sel).rows := (pipeline_rows_sublist_stage1 hfp).subset hmem
  exact absurd (datePred_hasDateCell ((List.mem_filter.mp
    (by rw [← filterByDate_rows]; exact h1)).2)) (by rw [hr]; exact Bool.noConfusion)

set_option maxRecDepth 8192 in
/-- Witness for C10: the sample upload whose third row has an unparseable
order date; that row is null-dated after loading and absent from the
filtered table. -/
theorem c10_witness :
    hasDateCell wrow3L = false ∧ main_model wmix wsel = Except.ok wout ∧
    wrow3L ∉ wout.rawRows.rows :=
  ⟨rfl, by with_unfolding_all rfl, c10_null_order_date_excluded wmix wsel wout wrow3L (by with_unfolding_all rfl) rfl⟩

/-! # C6: the KPI totals -/

theorem foldl_add_map (f : Row → Rat) :
    ∀ (l : List Row) (a : Rat), l.foldl (fun acc r => acc + f r) a = a + (l.map f).sum
  | [], a => by simp
  | r :: rs, a => by
    simp only [List.foldl_cons, List.map_cons, List.sum_cons]
    rw [foldl_add_map f rs (a + f r), add_assoc]

theorem seriesSum_eq_map_sum (df : DF) (c : String) :
    seriesSum df c = (df.rows.map (fun r => numOrZero (r.lookup c))).sum := by
  unfold seriesSum
  rw [foldl_add_map, zero_add]

/-- C6: on a successful run, `Total Orders` is the number of rows of the
filtered table and `Total Revenue` is the sum of the `Sub Total` column
over exactly those rows (nulls contributing zero, as pandas `sum` skips
NaN). -/
theorem c6_summary_totals (raw : DF) (sel : Selections) (out : Output)
    (h : main_model raw sel = .ok out) :
    out.totalOrders = out.rawRows.rows.length ∧
    out.totalRevenue =
      (out.rawRows.rows.map (fun r => numOrZero (r.lookup "Sub Total"))).sum := by
  obtain ⟨df, filt, hld, hfp, hout⟩ := main_model_ok h
  rw [hout]
  exact ⟨rfl, seriesSum_eq_map_sum filt "Sub Total"⟩

set_option maxRecDepth 8192 in
/-- Witness for C6: the sample run where `Total Orders = 2` and
`Total Revenue = 300 = 100 + 200`. -/
theorem c6_witness :
    main_model wfull wsel = Except.ok wout ∧
    wout.totalOrders = wout.rawRows.rows.length ∧
    wout.totalRevenue =
      (wout.rawRows.rows.map (fun r => numOrZero (r.lookup "Sub Total"))).sum :=
  ⟨by with_unfolding_all rfl, c6_summary_totals wfull wsel wout (by with_unfolding_all rfl)⟩

/-! # C7: the top-10 rankings -/

/-- C7: for every filtered table, each top-N product ranking (by revenue,
`Sub Total`, and by quantity, `Qty`; N = 10) is sorted in descending order
of its ranking metric and has at most 10 entries. -/
theorem c7_topten_sorted_bounded (df : DF) :
    (topTen df "Product Name" "Sub Total").length ≤ 10 ∧
    List.Sorted revGe (topTen df "Product Name" "Sub Total") ∧
    (topTen df "Product Name" "Qty").length ≤ 10 ∧
    List.Sorted revGe (topTen df "Product Name" "Qty") := by
  refine ⟨List.length_take_le _ _, ?_, List.length_take_le _ _, ?_⟩
  · exact List.Pairwise.sublist (List.take_sublist _ _)
      (List.sorted_insertionSort revGe (groupBySum df "Product Name" "Sub Total"))
  · exact List.Pairwise.sublist (List.take_sublist _ _)
      (List.sorted_insertionSort revGe (groupBySum df "Product Name" "Qty"))

/-! # C1: the top-level catch-all of the upload variant -/

/-- C1 (modelled from the spec for the uploaded-CSV entry point): any
exception raised anywhere on the data path is caught by the single
top-level try/except and converted into a user-facing message; the run
produces that message and not a rendered dashboard. -/
theorem c1_upload_exceptions_become_message (df : DF) (sel : Selections) (e : Err)
    (h : main_model df sel = .error e) :
    mainUpload df sel = RunResult.message (errMsg e) := by
  unfold mainUpload
  rw [h]

/-- Witness for C1: uploading a table without an `Order Date` column makes
the data path raise, and the user sees the error banner. -/
theorem c1_witness :
    mainUpload cdfNoOD wsel = RunResult.message (errMsg (Err.missingCol "Order Date")) :=
  c1_upload_exceptions_become_message cdfNoOD wsel (Err.missingCol "Order Date") rfl

/-! # C2: which column reads are guarded -/

theorem cleanNumCell_error {v : Value} {e : Err}
    (h : cleanNumCell v = .error e) : e.isMissing = false := by
  cases v with
  | num q => exact Except.noConfusion h
  | null => exact Except.noConfusion h
  | date d =>
    injection h with h2
    rw [← h2]
    rfl
  | str s =>
    rw [show cleanNumCell (Value.str s)
        = (match parseNum (stripCurrency s) with
           | some q => Except.ok (Value.num q)
           | none => Except.error (Err.floatParse s)) from rfl] at h
    cases hp : parseNum (stripCurrency s) with
    | none =>
      rw [hp] at h
      injection h with h2
      rw [← h2]
      rfl
    | some q => rw [hp] at h; exact Except.noConfusion h

theorem cellE_error {c : String} {f : Value → Except Err Value}
    {p : String × Value} {e : Err} (h : cellE c f p = .error e) :
    ∃ v, f v = .error e := by
  unfold cellE at h
  split at h
  · cases hf : f p.2 with
    | ok v => rw [hf] at h; exact Except.noConfusion h
    | error e2 =>
      rw [hf] at h
      injection h with h2
      exact ⟨p.2, by rw [hf, h2]⟩
  · exact Except.noConfusion h

theorem mapME_error {α β : Type} {f : α → Except Err β} {e : Err} :
    ∀ {l : List α}, mapME f l = .error e → ∃ a, a ∈ l ∧ f a = .error e := by
  intro l
  induction l with
  | nil => intro h; exact Except.noConfusion h
  | cons a as ih =>
    intro h
    unfold mapME at h
    cases hf : f a with
    | error e2 =>
      rw [hf] at h
      injection h with h2
      exact ⟨a, List.mem_cons_self a as, by rw [hf, h2]⟩
    | ok b =>
      rw [hf] at h
      cases hm : mapME f as with
      | error e2 =>
        rw [hm] at h
        injection h with h2
        obtain ⟨x, hx, hfx⟩ := ih (by rw [hm, h2])
        exact ⟨x, List.mem_cons_of_mem a hx, hfx⟩
      | ok bs => rw [hm] at h; exact Except.noConfusion h

theorem mapColE_error {df : DF} {c : String} {f : Value → Except Err Value}
    {e : Err} (h : mapColE df c f = .error e) : ∃ v, f v = .error e := by
  unfold mapColE at h
  cases hm : mapME (fun r => mapME (cellE c f) r) df.rows with
  | ok rs => rw [hm] at h; exact Except.noConfusion h
  | error e2 =>
    rw [hm] at h
    injection h with h2
    rw [h2] at hm
    obtain ⟨r, hr, hre⟩ := mapME_error hm
    obtain ⟨p, hp, hpe⟩ := mapME_error hre
    exact cellE_error hpe

theorem cleanNumsGo_error :
    ∀ {cs : List String} {df : DF} {e : Err}, cleanNumsGo cs df = .error e →
      ∃ v, cleanNumCell v = .error e := by
  intro cs
  induction cs with
  | nil => intro df e h; exact Except.noConfusion h
  | cons c cs ih =>
    intro df e h
    unfold cleanNumsGo at h
    split at h
    · cases hm : mapColE df c cleanNumCell with
      | error e2 =>
        rw [hm] at h
        injection h with h2
        rw [h2] at hm
        exact mapColE_error hm
      | ok d2 =>
        rw [hm] at h
        exact ih h
    · exact ih h

theorem load_data_error {df : DF} {e : Err}
    (h : load_data df = .error e) : e.isMissing = false := by
  unfold load_data at h
  cases hc : cleanNums (cleanDates df) with
  | ok d => rw [hc] at h; exact Except.noConfusion h
  | error e2 =>
    rw [hc] at h
    injection h with h2
    rw [h2] at hc
    obtain ⟨v, hv⟩ := cleanNumsGo_error hc
    exact cleanNumCell_error hv

theorem cleanDatesGo_skip :
    ∀ (cs : List String) (d : DF), (∀ c ∈ cs, hasCol d c = false) →
      cs.foldl (fun d2 c => if hasCol d2 c then mapCol d2 c cleanDateCell else d2) d = d
  | [], _, _ => rfl
  | c :: cs, d, h => by
    have hc : hasCol d c = false := h c (List.mem_cons_self c cs)
    simp only [List.foldl_cons, hc, Bool.false_eq_true, if_false]
    exact cleanDatesGo_skip cs d (fun c2 hc2 => h c2 (List.mem_cons_of_mem c hc2))

theorem cleanNumsGo_skip :
    ∀ (cs : List String) (d : DF), (∀ c ∈ cs, hasCol d c = false) →
      cleanNumsGo cs d = .ok d
  | [], _, _ => rfl
  | c :: cs, d, h => by
    have hc : hasCol d c = false := h c (List.mem_cons_self c cs)
    unfold cleanNumsGo
    simp only [hc, Bool.false_eq_true, if_false]
    exact cleanNumsGo_skip cs d (fun c2 hc2 => h c2 (List.mem_cons_of_mem c hc2))

theorem addMonthYear_skip {df : DF} (h : hasCol df "Order Date" = false) :
    addMonthYear df = df := by
  unfold addMonthYear
  simp only [h, Bool.false_eq_true, if_false]

/-- C2 amended: only `load_data` checks column presence before use — it
never raises a missing-column error (its only failures are numeric parse
errors) and leaves a table without any designated column untouched.  The
reads in `main` (filters, KPIs, group-bys) are unguarded; see
`c2_counterexample`. -/
theorem c2_presence_checks_only_in_load (df : DF) :
    (∀ e, load_data df = .error e → Err.isMissing e = false) ∧
    ((∀ c ∈ dateColNames, hasCol df c = false) →
      (∀ c ∈ numericColNames, hasCol df c = false) →
      load_data df = .ok df) := by
  constructor
  · intro e h
    exact load_data_error h
  · intro hd hn
    have h1 : cleanDates df = df := cleanDatesGo_skip dateColNames df hd
    have h2 : cleanNums df = .ok df := cleanNumsGo_skip numericColNames df hn
    have h3 : hasCol df "Order Date" = false := hd "Order Date" (by simp [dateColNames])
    unfold load_data
    rw [h1, h2]
    show Except.ok (addMonthYear df) = Except.ok df
    rw [addMonthYear_skip h3]

/-- Witness for C2 (amended): a numeric parse failure is not a
missing-column error, and `load_data` passes a column-free table through. -/
theorem c2_witness :
    Err.isMissing (Err.floatParse "abc") = false ∧
    load_data wplain = Except.ok wplain :=
  ⟨(c2_presence_checks_only_in_load wbadNum).1 (Err.floatParse "abc") rfl,
   (c2_presence_checks_only_in_load wplain).2 (by decide) (by decide)⟩

/-- Counterexample for C2 as stated: `main` reads `df['Order Date']`
(line 54) without checking its presence, so a table lacking that column
makes the run raise a `KeyError` — not every column read is preceded by a
presence check. -/
theorem c2_counterexample :
    main_model cdfNoOD wsel = Except.error (Err.missingCol "Order Date") := rfl

/-! # C3: unparseable numerics raise instead of coercing -/

/-- C3 amended: during preprocessing, a string cell of a designated
numeric column is stripped of `$` and `,` and converted; when the stripped
text still fails to parse as a float the conversion raises `ValueError`
(the `astype(float)` of line 36), it is NOT replaced by a null marker. -/
theorem c3_numeric_parse_failure_raises (s : String) :
    (∀ q, parseNum (stripCurrency s) = some q →
      cleanNumCell (Value.str s) = Except.ok (Value.num q)) ∧
    (parseNum (stripCurrency s) = none →
      cleanNumCell (Value.str s) = Except.error (Err.floatParse s)) := by
  constructor
  · intro q hq
    show (match parseNum (stripCurrency s) with
          | some q2 => Except.ok (Value.num q2)
          | none => Except.error (Err.floatParse s)) = Except.ok (Value.num q)
    rw [hq]
  · intro hq
    show (match parseNum (stripCurrency s) with
          | some q2 => Except.ok (Value.num q2)
          | none => Except.error (Err.floatParse s)) = Except.error (Err.floatParse s)
    rw [hq]

/-- Witness for C3 (amended): `$1,000.50` is stripped and parsed to
`1000.5`, while `abc` raises. -/
theorem c3_witness :
    cleanNumCell (Value.str "$1,000.50") = Except.ok (Value.num (2001 / 2)) ∧
    cleanNumCell (Value.str "abc") = Except.error (Err.floatParse "abc") :=
  ⟨(c3_numeric_parse_failure_raises "$1,000.50").1 (2001 / 2) (by with_unfolding_all rfl),
   (c3_numeric_parse_failure_raises "abc").2 rfl⟩

/-- Counterexample for C3 as stated: a `Qty` cell `"abc"` does not become
null — `load_data` raises a `ValueError` instead. -/
theorem c3_counterexample :
    load_data wbadNum = Except.error (Err.floatParse "abc") := rfl

/-! # C4: date parse failures become NaT -/

theorem cleanDatesGo_shape :
    ∀ (cs : List String) (d : DF),
      ((cs.foldl (fun d2 c => if hasCol d2 c then mapCol d2 c cleanDateCell else d2) d).cols
          = d.cols) ∧
      ((cs.foldl (fun d2 c => if hasCol d2 c then mapCol d2 c cleanDateCell else d2) d).rows.length
          = d.rows.length)
  | [], _ => ⟨rfl, rfl⟩
  | c :: cs, d => by
    have hstep :
        ((if hasCol d c then mapCol d c cleanDateCell else d)).cols = d.cols ∧
        ((if hasCol d c then mapCol d c cleanDateCell else d)).rows.length
          = d.rows.length := by
      split
      · exact ⟨rfl, by simp [mapCol]⟩
      · exact ⟨rfl, rfl⟩
    have ih := cleanDatesGo_shape cs (if hasCol d c then mapCol d c cleanDateCell else d)
    simp only [List.foldl_cons]
    exact ⟨ih.1.trans hstep.1, ih.2.trans hstep.2⟩

/-- C4: every cell of a designated date column is coerced to either a
parsed date or the null marker NaT; in particular a string that fails to
parse with `%d/%m/%Y` becomes null, and the date-conversion step is total
(it raises nothing and preserves the table's shape). -/
theorem c4_date_parse_failures_null (df : DF) (v : Value) (s : String) :
    ((∃ d, cleanDateCell v = Value.date d) ∨ cleanDateCell v = Value.null) ∧
    (parseDateDMY s = none → cleanDateCell (Value.str s) = Value.null) ∧
    (cleanDates df).cols = df.cols ∧
    (cleanDates df).rows.length = df.rows.length := by
  refine ⟨?_, ?_, (cleanDatesGo_shape dateColNames df).1, (cleanDatesGo_shape dateColNames df).2⟩
  · cases v with
    | str s2 =>
      cases hp : parseDateDMY s2 with
      | some d => exact Or.inl ⟨d, by simp [cleanDateCell, hp]⟩
      | none => exact Or.inr (by simp [cleanDateCell, hp])
    | null => exact Or.inr rfl
    | num q => exact Or.inr rfl
    | date d => exact Or.inl ⟨d, rfl⟩
  · intro hp
    simp [cleanDateCell, hp]

/-- Witness for C4: `"hello"` fails to parse as `%d/%m/%Y` and the cell
becomes null. -/
theorem c4_witness :
    parseDateDMY "hello" = none ∧ cleanDateCell (Value.str "hello") = Value.null :=
  ⟨rfl, (c4_date_parse_failures_null wplain Value.null "hello").2.1 rfl⟩

/-! # C8: the CSV export round-trips -/

theorem mapMO_map {α β γ : Type} (f : β → Option γ) (h : α → β) :
    ∀ l : List α, mapMO f (l.map h) = mapMO (fun a => f (h a)) l
  | [] => rfl
  | a :: as => by
    simp only [List.map_cons, mapMO, mapMO_map f h as]

theorem mapMO_some {α β : Type} {f : α → Option β} {g : α → β} :
    ∀ {l : List α}, (∀ a ∈ l, f a = some (g a)) → mapMO f l = some (l.map g)
  | [], _ => rfl
  | a :: as, h => by
    have ha := h a (by simp)
    have ih := mapMO_some (l := as) (fun x hx => h x (List.mem_cons_of_mem a hx))
    simp only [mapMO, ha, ih, List.map_cons]

/-! One-step transitions of the CSV tokenizer. -/

theorem csvLoop_plain_comma (field : List Char) (record : List (List Char))
    (records : List (List (List Char))) (cs : List Char) :
    csvLoop .plain field record records (',' :: cs)
      = csvLoop .plain [] (record ++ [field]) records cs := by
  simp [csvLoop]

theorem csvLoop_plain_nl {record : List (List Char)} (field : List Char)
    (records : List (List (List Char))) (cs : List Char) (h : record ≠ []) :
    csvLoop .plain field record records ('\n' :: cs)
      = csvLoop .plain [] [] (records ++ [record ++ [field]]) cs := by
  cases record with
  | nil => exact absurd rfl h
  | cons a record2 => simp [csvLoop]

theorem csvLoop_plain_blank (records : List (List (List Char))) (cs : List Char) :
    csvLoop .plain [] [] records ('\n' :: cs)
      = csvLoop .plain [] [] records cs := by
  simp [csvLoop]

theorem csvLoop_plain_char {c : Char} (field : List Char)
    (record : List (List Char)) (records : List (List (List Char)))
    (cs : List Char) (h1 : c ≠ '"') (h2 : c ≠ ',') (h3 : c ≠ '\n') :
    csvLoop .plain field record records (c :: cs)
      = csvLoop .plain (field ++ [c]) record records cs := by
  simp [csvLoop, h1, h2, h3]

theorem csvLoop_plain_open (record : List (List Char))
    (records : List (List (List Char))) (cs : List Char) :
    csvLoop .plain [] record records ('"' :: cs)
      = csvLoop .quoted [] record records cs := by
  simp [csvLoop]

theorem csvLoop_quoted_quote (field : List Char) (record : List (List Char))
    (records : List (List (List Char))) (cs : List Char) :
    csvLoop .quoted field record records ('"' :: cs)
      = csvLoop .closed field record records cs := by
  simp [csvLoop]

theorem csvLoop_quoted_char {c : Char} (field : List Char)
    (record : List (List Char)) (records : List (List (List Char)))
    (cs : List Char) (h : c ≠ '"') :
    csvLoop .quoted field record records (c :: cs)
      = csvLoop .quoted (field ++ [c]) record records cs := by
  simp [csvLoop, h]

theorem csvLoop_closed_quote (field : List Char) (record : List (List Char))
    (records : List (List (List Char))) (cs : List Char) :
    csvLoop .closed field record records ('"' :: cs)
      = csvLoop .quoted (field ++ ['"']) record records cs := by
  simp [csvLoop]

theorem csvLoop_closed_comma (field : List Char) (record : List (List Char))
    (records : List (List (List Char))) (cs : List Char) :
    csvLoop .closed field record records (',' :: cs)
      = csvLoop .plain [] (record ++ [field]) records cs := by
  simp [csvLoop]

theorem csvLoop_closed_nl (field : List Char) (record : List (List Char))
    (records : List (List (List Char))) (cs : List Char) :
    csvLoop .closed field record records ('\n' :: cs)
      = csvLoop .plain [] [] (records ++ [record ++ [field]]) cs := by
  simp [csvLoop]

theorem csvLoop_eof (records : List (List (List Char))) :
    csvLoop .plain [] [] records [] = some records := by
  simp [csvLoop]

/-! Consuming one rendered field, record and record stream. -/

theorem csvLoop_quoted_body :
    ∀ (f field : List Char) (record : List (List Char))
      (records : List (List (List Char))) (rest : List Char),
      csvLoop .quoted field record records (escQuotes f ++ '"' :: rest)
        = csvLoop .closed (field ++ f) record records rest
  | [], field, record, records, rest => by
    show csvLoop .quoted field record records ('"' :: rest) = _
    rw [csvLoop_quoted_quote]
    simp
  | x :: f2, field, record, records, rest => by
    by_cases hx : x = '"'
    · subst hx
      show csvLoop .quoted field record records
          (('"' :: '"' :: escQuotes f2) ++ '"' :: rest) = _
      rw [List.cons_append, List.cons_append, csvLoop_quoted_quote,
        csvLoop_closed_quote, csvLoop_quoted_body f2]
      simp
    · show csvLoop .quoted field record records
          ((if x = '"' then '"' :: '"' :: escQuotes f2 else x :: escQuotes f2)
            ++ '"' :: rest) = _
      rw [if_neg hx, List.cons_append, csvLoop_quoted_char _ _ _ _ hx,
        csvLoop_quoted_body f2]
      simp

theorem csvLoop_plain_run :
    ∀ (f field : List Char) (record : List (List Char))
      (records : List (List (List Char))) (rest : List Char),
      (∀ x ∈ f, ¬(x = '"' ∨ x = ',' ∨ x = '\n')) →
      csvLoop .plain field record records (f ++ rest)
        = csvLoop .plain (field ++ f) record records rest
  | [], field, record, records, rest, _ => by simp
  | x :: f2, field, record, records, rest, h => by
    have hx := h x (by simp)
    rw [List.cons_append,
      csvLoop_plain_char field record records _ (fun h2 => hx (Or.inl h2))
        (fun h2 => hx (Or.inr (Or.inl h2))) (fun h2 => hx (Or.inr (Or.inr h2))),
      csvLoop_plain_run f2 _ _ _ _ (fun a ha => h a (List.mem_cons_of_mem x ha))]
    simp

theorem needsQuote_false_chars {f : List Char} (h : needsQuote f = false) :
    ∀ x ∈ f, ¬(x = '"' ∨ x = ',' ∨ x = '\n') := by
  intro x hx hor
  have h2 : needsQuote f = true := by
    unfold needsQuote
    rw [List.any_eq_true]
    exact ⟨x, hx, by rcases hor with h3 | h3 | h3 <;> simp [h3]⟩
  rw [h2] at h
  exact Bool.noConfusion h

theorem csvLoop_field_comma (f : List Char) (record : List (List Char))
    (records : List (List (List Char))) (rest : List Char) :
    csvLoop .plain [] record records (quoteField f ++ ',' :: rest)
      = csvLoop .plain [] (record ++ [f]) records rest := by
  unfold quoteField
  cases hq : needsQuote f with
  | true =>
    rw [if_pos rfl, List.cons_append, csvLoop_plain_open,
      show (escQuotes f ++ ['"']) ++ ',' :: rest
          = escQuotes f ++ '"' :: ',' :: rest by simp,
      csvLoop_quoted_body, csvLoop_closed_comma]
    simp
  | false =>
    rw [if_neg (by simp),
      csvLoop_plain_run f [] record records _ (needsQuote_false_chars hq),
      List.nil_append, csvLoop_plain_comma]

theorem csvLoop_field_nl (f : List Char) {record : List (List Char)}
    (records : List (List (List Char))) (rest : List Char) (hrec : record ≠ []) :
    csvLoop .plain [] record records (quoteField f ++ '\n' :: rest)
      = csvLoop .plain [] [] (records ++ [record ++ [f]]) rest := by
  unfold quoteField
  cases hq : needsQuote f with
  | true =>
    rw [if_pos rfl, List.cons_append, csvLoop_plain_open,
      show (escQuotes f ++ ['"']) ++ '\n' :: rest
          = escQuotes f ++ '"' :: '\n' :: rest by simp,
      csvLoop_quoted_body, csvLoop_closed_nl]
    simp
  | false =>
    rw [if_neg (by simp),
      csvLoop_plain_run f [] record records _ (needsQuote_false_chars hq),
      List.nil_append, csvLoop_plain_nl _ _ _ hrec]

theorem csvLoop_record_tail :
    ∀ (fs record : List (List Char))
      (records : List (List (List Char))) (rest : List Char),
      fs ≠ [] → record ≠ [] →
      csvLoop .plain [] record records (csvLine fs ++ '\n' :: rest)
        = csvLoop .plain [] [] (records ++ [record ++ fs]) rest
  | [], _, _, _, hne, _ => absurd rfl hne
  | [f], record, records, rest, _, hrec => by
    show csvLoop .plain [] record records (quoteField f ++ '\n' :: rest) = _
    rw [csvLoop_field_nl f records rest hrec]
  | f :: f2 :: fs2, record, records, rest, _, hrec => by
    show csvLoop .plain [] record records
        ((quoteField f ++ ',' :: csvLine (f2 :: fs2)) ++ '\n' :: rest) = _
    rw [show (quoteField f ++ ',' :: csvLine (f2 :: fs2)) ++ '\n' :: rest
        = quoteField f ++ ',' :: (csvLine (f2 :: fs2) ++ '\n' :: rest) by simp,
      csvLoop_field_comma,
      csvLoop_record_tail (f2 :: fs2) (record ++ [f]) records rest (by simp) (by simp)]
    simp

theorem csvLoop_record (f f2 : List Char) (fs2 : List (List Char))
    (records : List (List (List Char))) (rest : List Char) :
    csvLoop .plain [] [] records (csvLine (f :: f2 :: fs2) ++ '\n' :: rest)
      = csvLoop .plain [] [] (records ++ [f :: f2 :: fs2]) rest := by
  show csvLoop .plain [] [] records
      ((quoteField f ++ ',' :: csvLine (f2 :: fs2)) ++ '\n' :: rest) = _
  rw [show (quoteField f ++ ',' :: csvLine (f2 :: fs2)) ++ '\n' :: rest
      = quoteField f ++ ',' :: (csvLine (f2 :: fs2) ++ '\n' :: rest) by simp,
    csvLoop_field_comma, List.nil_append,
    csvLoop_record_tail (f2 :: fs2) [f] records rest (by simp) (by simp)]
  simp

theorem csvLoop_stream :
    ∀ (fss : List (List (List Char))) (records : List (List (List Char))),
      (∀ fs ∈ fss, ∃ a b t, fs = a :: b :: t) →
      csvLoop .plain [] [] records (joinCh '\n' (fss.map csvLine) ++ ['\n'])
        = some (records ++ fss)
  | [], records, _ => by
    show csvLoop .plain [] [] records ('\n' :: []) = _
    rw [csvLoop_plain_blank, csvLoop_eof]
    simp
  | [fs], records, h => by
    obtain ⟨a, b, t, hfs⟩ := h fs (by simp)
    subst hfs
    show csvLoop .plain [] [] records (csvLine (a :: b :: t) ++ ['\n']) = _
    rw [show csvLine (a :: b :: t) ++ ['\n']
        = csvLine (a :: b :: t) ++ '\n' :: [] from rfl,
      csvLoop_record, csvLoop_eof]
  | fs :: fs2 :: fss2, records, h => by
    obtain ⟨a, b, t, hfs⟩ := h fs (by simp)
    subst hfs
    show csvLoop .plain [] [] records
        ((csvLine (a :: b :: t) ++ '\n' :: joinCh '\n' ((fs2 :: fss2).map csvLine))
          ++ ['\n']) = _
    rw [show (csvLine (a :: b :: t) ++ '\n' :: joinCh '\n' ((fs2 :: fss2).map csvLine))
          ++ ['\n']
        = csvLine (a :: b :: t)
            ++ '\n' :: (joinCh '\n' ((fs2 :: fss2).map csvLine) ++ ['\n']) by simp,
      csvLoop_record,
      csvLoop_stream (fs2 :: fss2) _ (fun x hx => h x (List.mem_cons_of_mem _ hx))]
    simp

/-- C8: for every wellformed filtered table (rows keyed like the header,
at least two columns — the dashboard's table has twelve), serializing with
`to_csv` and re-parsing the bytes with `read_csv` yields exactly the
stringified table: the same columns, the same rows in order, each cell
holding the text the original cell rendered to — a table
`csvEquiv`-equivalent to the filtered one.  Cell content is unrestricted:
fields holding separators, quotes or newlines are quoted by the writer
and unquoted by the reader. -/
theorem c8_csv_export_roundtrip (df : DF)
    (hcols2 : 2 ≤ df.cols.length)
    (hkeys : ∀ r ∈ df.rows, r.map Prod.fst = df.cols) :
    parseCsv (toCsv df) = some (stringifyDF df) ∧ csvEquiv (stringifyDF df) df := by
  have hrowlen : ∀ r ∈ df.rows, (rowCells r).length = df.cols.length := by
    intro r hr
    have h2 := congrArg List.length (hkeys r hr)
    simpa [rowCells] using h2
  have hshape : ∀ fs ∈ (df.cols.map String.data :: df.rows.map rowCells),
      ∃ a b t, fs = a :: b :: t := by
    intro fs hfs
    have hlen : 2 ≤ fs.length := by
      rcases List.mem_cons.mp hfs with hm | hm
      · rw [hm]
        simpa using hcols2
      · obtain ⟨r, hr, hpr⟩ := List.mem_map.mp hm
        rw [← hpr, hrowlen r hr]
        exact hcols2
    cases fs with
    | nil => simp at hlen
    | cons a fs2 =>
      cases fs2 with
      | nil => simp at hlen
      | cons b t => exact ⟨a, b, t, rfl⟩
  have hstream : csvRecords (toCsvData df)
      = some ([] ++ (df.cols.map String.data :: df.rows.map rowCells)) := by
    unfold csvRecords
    have hdata : toCsvData df
        = joinCh '\n'
            ((df.cols.map String.data :: df.rows.map rowCells).map csvLine) ++ ['\n'] := by
      unfold toCsvData
      rw [List.map_cons, List.map_map]
      rfl
    rw [hdata]
    exact csvLoop_stream _ [] hshape
  rw [List.nil_append] at hstream
  have hcolsId : (df.cols.map String.data).map (fun f => String.mk f) = df.cols := by
    rw [List.map_map]
    calc df.cols.map ((fun f => String.mk f) ∘ String.data)
        = df.cols.map id := by
          refine List.map_congr_left ?_
          intro c hc
          rfl
      _ = df.cols := List.map_id df.cols
  have hrowParse : ∀ r ∈ df.rows, parseRow df.cols (rowCells r)
      = some (r.map (fun p => (p.1, Value.str (renderValue p.2)))) := by
    intro r hr
    unfold parseRow
    rw [if_pos (hrowlen r hr)]
    congr 1
    rw [← hkeys r hr]
    unfold rowCells
    rw [List.map_map, List.zip_map']
    rfl
  have hrowsMO : mapMO (parseRow df.cols) (df.rows.map rowCells)
      = some (df.rows.map (fun r =>
          r.map (fun p => (p.1, Value.str (renderValue p.2))))) := by
    rw [mapMO_map]
    exact mapMO_some (fun r hr => hrowParse r hr)
  constructor
  · show parseCsv (toCsv df) = some (stringifyDF df)
    unfold parseCsv
    rw [show (toCsv df).data = toCsvData df from rfl, hstream]
    show (match mapMO
            (parseRow ((df.cols.map String.data).map (fun f => String.mk f)))
            (df.rows.map rowCells) with
          | some rows => some (DF.mk
              ((df.cols.map String.data).map (fun f => String.mk f)) rows)
          | none => none) = some (stringifyDF df)
    rw [hcolsId, hrowsMO]
    rfl
  · refine ⟨rfl, ?_⟩
    show (df.rows.map (fun r => r.map (fun p => (p.1, Value.str (renderValue p.2))))).map
          (List.map (fun p => (p.1, renderValue p.2)))
        = df.rows.map (List.map (fun p => (p.1, renderValue p.2)))
    rw [List.map_map]
    refine List.map_congr_left ?_
    intro r _
    show List.map (fun p => (p.1, renderValue p.2))
          (List.map (fun p => (p.1, Value.str (renderValue p.2))) r)
        = List.map (fun p => (p.1, renderValue p.2)) r
    rw [List.map_map]
    rfl

/-- Witness for C8: a table whose cells contain a comma, an escaped quote
and an embedded newline round-trips through the CSV export. -/
theorem c8_witness :
    2 ≤ wqcsv.cols.length ∧
    (∀ r ∈ wqcsv.rows, r.map Prod.fst = wqcsv.cols) ∧
    parseCsv (toCsv wqcsv) = some (stringifyDF wqcsv) ∧
    csvEquiv (stringifyDF wqcsv) wqcsv :=
  ⟨by decide, by decide, c8_csv_export_roundtrip wqcsv (by decide) (by decide)⟩

end Dash
